import Mathlib

/-!
Verification development for the support-bot repository.

The repository has two source modules:

* `src/app/bot/utils/texts.py` — the supported-language table, the abstract
  `Text` catalog class (constructor with language fallback, `get` lookup) and
  its concrete subclass `TextMessage` holding the bilingual message templates.
* `src/app/bot/commands.py` — the `setup` routine that builds per-language
  command lists for three scopes (admin chat, all private chats, all group
  chats) and pushes them to the bot platform via sequential
  `set_my_commands` calls, translating a `TelegramBadRequest` on the admin
  calls into a `ValueError` naming the admin chat identifier.

The embedding below is shallow: Python dicts become association lists,
the sequence of remote calls becomes an explicit trace of call records, and
exceptions become an explicit outcome value.  A fault model
`fails : SetMyCommandsCall → Bool` says which remote calls raise
`TelegramBadRequest`.
-/

set_option autoImplicit false

/-- A `(command, description)` pair, embedding aiogram's `BotCommand`. -/
structure BotCommand where
  command : String
  description : String
deriving DecidableEq

/-- The `SUPPORTED_LANGUAGES` dict of `texts.py` (language code → display
name), rendered as an association list in source order. -/
def SUPPORTED_LANGUAGES : List (String × String) :=
  [("en", "🇬🇧 English"), ("ar", "🇸🇾 العربية")]

/-- `SUPPORTED_LANGUAGES.keys()`: the list of supported language codes. -/
def supportedCodes : List String :=
  SUPPORTED_LANGUAGES.map Prod.fst

/-- The state of a `Text` instance: the single attribute `language_code`
assigned in `Text.__init__`. -/
structure Text where
  language_code : String
deriving DecidableEq

/-- `Text.__init__` of `texts.py`: stores the requested code when it is a key
of `SUPPORTED_LANGUAGES`, otherwise silently substitutes `"en"`. -/
def Text.init (language_code : String) : Text :=
  ⟨if supportedCodes.contains language_code then language_code else "en"⟩

/-- `Text.get` of `texts.py`: `self.data[self.language_code][code]`.
The abstract `data` property is passed explicitly (subclasses supply it);
a missing outer or inner key — a Python `KeyError` — is `none`. -/
def Text.get (data : List (String × List (String × String))) (t : Text)
    (code : String) : Option String :=
  match data.lookup t.language_code with
  | some table => table.lookup code
  | none => none

/-- aiogram's `hbold`: wrap in an HTML bold tag. -/
def hbold (s : String) : String :=
  "<b>" ++ s ++ "</b>"

/-- The `data` property of `TextMessage` in `texts.py`: language code →
(message key → template string), with every string transcribed from the
source (Python f-strings with `hbold` rendered via `hbold`, adjacent string
literals concatenated). -/
def TextMessage.data : List (String × List (String × String)) :=
  [ ("en",
      [ ("select_language",
          "👋 <b>Hello</b>, " ++ hbold "{full_name}" ++ "!\n\nSelect language:"),
        ("change_language", "<b>Select language:</b>"),
        ("main_menu",
          "<b>Write your question</b>, and we will answer you as soon as possible:"),
        ("message_sent", "<b>Message sent!</b> Expect a response."),
        ("message_edited",
          "<b>The message was edited only in your chat.</b> " ++
          "To send an edited message, send it as a new message."),
        ("user_started_bot",
          "User " ++ hbold "{name}" ++ " started the bot!\n\n" ++
          "List of available commands:\n\n" ++
          "• /ban\n" ++
          "Block/Unblock user" ++
          "<blockquote>Block the user if you do not want to receive messages from him.</blockquote>\n\n" ++
          "• /silent\n" ++
          "Activate/Deactivate silent mode" ++
          "<blockquote>When silent mode is enabled, messages are not sent to the user.</blockquote>\n\n" ++
          "• /information\n" ++
          "User information" ++
          "<blockquote>Receive a message with basic information about the user.</blockquote>"),
        ("user_restarted_bot", "User " ++ hbold "{name}" ++ " restarted the bot!"),
        ("user_stopped_bot", "User " ++ hbold "{name}" ++ " stopped the bot!"),
        ("user_blocked",
          "<b>User blocked!</b> Messages from the user are not accepted."),
        ("user_unblocked",
          "<b>User unblocked!</b> Messages from the user are being accepted again."),
        ("blocked_by_user",
          "<b>Message not sent!</b> The bot has been blocked by the user."),
        ("user_information",
          "<b>ID:</b>\n" ++
          "- <code>{id}</code>\n" ++
          "<b>Name:</b>\n" ++
          "- {full_name}\n" ++
          "<b>Status:</b>\n" ++
          "- {state}\n" ++
          "<b>Username:</b>\n" ++
          "- {username}\n" ++
          "<b>Blocked:</b>\n" ++
          "- {is_banned}\n" ++
          "<b>Registration date:</b>\n" ++
          "- {created_at}"),
        ("message_not_sent",
          "<b>Message not sent!</b> An unexpected error occurred."),
        ("message_sent_to_user", "<b>Message sent to user!</b>"),
        ("silent_mode_enabled",
          "<b>Silent mode activated!</b> Messages will not be delivered to the user."),
        ("silent_mode_disabled",
          "<b>Silent mode deactivated!</b> The user will receive all messages.") ]),
    ("ar",
      [ ("select_language",
          "👋 <b>مرحباً</b>، " ++ hbold "{full_name}" ++ "!\n\nاختر اللغة:"),
        ("change_language", "<b>اختر اللغة:</b>"),
        ("main_menu", "<b>اكتب سؤالك</b>، وسنجيبك في أقرب وقت ممكن:"),
        ("message_sent", "<b>تم إرسال الرسالة!</b> انتظر الرد."),
        ("message_edited",
          "<b>تم تعديل الرسالة في محادثتك فقط.</b> " ++
          "لإرسال الرسالة المعدلة، أرسلها كرسالة جديدة."),
        ("user_started_bot",
          "المستخدم " ++ hbold "{name}" ++ " بدأ البوت!\n\n" ++
          "قائمة الأوامر المتاحة:\n\n" ++
          "• /ban\n" ++
          "حظر/إلغاء حظر المستخدم" ++
          "<blockquote>احظر المستخدم إذا كنت لا تريد استقبال رسائل منه.</blockquote>\n\n" ++
          "• /silent\n" ++
          "تفعيل/إلغاء الوضع الصامت" ++
          "<blockquote>عند تفعيل الوضع الصامت، لا يتم إرسال الرسائل للمستخدم.</blockquote>\n\n" ++
          "• /information\n" ++
          "معلومات المستخدم" ++
          "<blockquote>استلم رسالة تحتوي على المعلومات الأساسية عن المستخدم.</blockquote>"),
        ("user_restarted_bot",
          "المستخدم " ++ hbold "{name}" ++ " أعاد تشغيل البوت!"),
        ("user_stopped_bot", "المستخدم " ++ hbold "{name}" ++ " أوقف البوت!"),
        ("user_blocked",
          "<b>تم حظر المستخدم!</b> لن يتم قبول الرسائل من هذا المستخدم."),
        ("user_unblocked",
          "<b>تم إلغاء حظر المستخدم!</b> سيتم قبول الرسائل من هذا المستخدم مجدداً."),
        ("blocked_by_user",
          "<b>لم يتم إرسال الرسالة!</b> تم حظر البوت من قبل المستخدم."),
        ("user_information",
          "<b>المعرف:</b>\n" ++
          "- <code>{id}</code>\n" ++
          "<b>الاسم:</b>\n" ++
          "- {full_name}\n" ++
          "<b>الحالة:</b>\n" ++
          "- {state}\n" ++
          "<b>اسم المستخدم:</b>\n" ++
          "- {username}\n" ++
          "<b>محظور:</b>\n" ++
          "- {is_banned}\n" ++
          "<b>تاريخ التسجيل:</b>\n" ++
          "- {created_at}"),
        ("message_not_sent",
          "<b>لم يتم إرسال الرسالة!</b> حدث خطأ غير متوقع."),
        ("message_sent_to_user", "<b>تم إرسال الرسالة للمستخدم!</b>"),
        ("silent_mode_enabled",
          "<b>تم تفعيل الوضع الصامت!</b> لن يتم توصيل الرسائل للمستخدم."),
        ("silent_mode_disabled",
          "<b>تم إلغاء الوضع الصامت!</b> سيستلم المستخدم جميع الرسائل.") ]) ]

/-- `TextMessage`'s inherited `get`: the `Text.get` lookup dispatched to the
concrete `TextMessage.data` property. -/
def TextMessage.get (t : Text) (code : String) : Option String :=
  Text.get TextMessage.data t code

/-!
## `commands.py`
-/

/-- The three aiogram command scopes used by `commands.py`:
`BotCommandScopeChat(chat_id)`, `BotCommandScopeAllPrivateChats`,
`BotCommandScopeAllGroupChats`. -/
inductive BotCommandScope where
  | chat (chat_id : Int)
  | allPrivateChats
  | allGroupChats
deriving DecidableEq

/-- One `bot.set_my_commands(...)` invocation: the command list, the scope,
and the optional `language_code` argument (`none` when the source omits it,
which registers the default command list). -/
structure SetMyCommandsCall where
  commands : List BotCommand
  scope : BotCommandScope
  language_code : Option String
deriving DecidableEq

/-- The `commands` dict of `setup` (lines 22–38 of `commands.py`): the base
private-chat lists start as `[start]` per language, and a `language` command
is appended to each when the supported-language table read by the module has
more than one entry.  The table is a parameter because `setup` reads the
module-level `SUPPORTED_LANGUAGES`. -/
def commands (supported : List (String × String)) : List (String × List BotCommand) :=
  if supported.length > 1 then
    [ ("en", [BotCommand.mk "start" "Restart bot",
              BotCommand.mk "language" "Change language"]),
      ("ar", [BotCommand.mk "start" "إعادة تشغيل البوت",
              BotCommand.mk "language" "تغيير اللغة"]) ]
  else
    [ ("en", [BotCommand.mk "start" "Restart bot"]),
      ("ar", [BotCommand.mk "start" "إعادة تشغيل البوت"]) ]

/-- The `group_commands` dict of `setup` (lines 40–51). -/
def group_commands : List (String × List BotCommand) :=
  [ ("en", [BotCommand.mk "ban" "Block/Unblock a user",
            BotCommand.mk "silent" "Activate/Deactivate silent Mode",
            BotCommand.mk "information" "User information"]),
    ("ar", [BotCommand.mk "ban" "حظر/إلغاء حظر مستخدم",
            BotCommand.mk "silent" "تفعيل/إلغاء الوضع الصامت",
            BotCommand.mk "information" "معلومات المستخدم"]) ]

/-- The `admin_commands` dict of `setup` (lines 53–60): per language, a copy
of the base list with the `newsletter` command appended. -/
def admin_commands (supported : List (String × String)) : List (String × List BotCommand) :=
  [ ("en", ((commands supported).lookup "en").getD [] ++
        [BotCommand.mk "newsletter" "Newsletter menu"]),
    ("ar", ((commands supported).lookup "ar").getD [] ++
        [BotCommand.mk "newsletter" "قائمة النشرة"]) ]

/-- The two admin-scope `set_my_commands` calls inside the `try` block of
`setup` (lines 62–73), in source order. -/
def setupAdminCalls (supported : List (String × String)) (DEV_ID : Int) :
    List SetMyCommandsCall :=
  [ SetMyCommandsCall.mk (((admin_commands supported).lookup "en").getD [])
      (BotCommandScope.chat DEV_ID) none,
    SetMyCommandsCall.mk (((admin_commands supported).lookup "ar").getD [])
      (BotCommandScope.chat DEV_ID) (some "ar") ]

/-- The four `set_my_commands` calls after the `try` block of `setup`
(lines 77–98): all-private-chats then all-group-chats, English then Arabic. -/
def setupRestCalls (supported : List (String × String)) : List SetMyCommandsCall :=
  [ SetMyCommandsCall.mk (((commands supported).lookup "en").getD [])
      BotCommandScope.allPrivateChats none,
    SetMyCommandsCall.mk (((commands supported).lookup "ar").getD [])
      BotCommandScope.allPrivateChats (some "ar"),
    SetMyCommandsCall.mk ((group_commands.lookup "en").getD [])
      BotCommandScope.allGroupChats none,
    SetMyCommandsCall.mk ((group_commands.lookup "ar").getD [])
      BotCommandScope.allGroupChats (some "ar") ]

/-- How a run of `setup` ends: normal return, the `ValueError` raised by the
`except TelegramBadRequest` handler, or an untranslated `TelegramBadRequest`
escaping from a call outside the `try` block. -/
inductive SetupOutcome where
  | ok
  | valueError (msg : String)
  | telegramBadRequest
deriving DecidableEq

/-- Run a sequence of remote calls under the fault model `fails`: calls are
attempted in order and the sequence stops at the first call that raises
`TelegramBadRequest`.  Returns the attempted calls and whether an exception
was raised. -/
def attemptCalls (fails : SetMyCommandsCall → Bool) :
    List SetMyCommandsCall → List SetMyCommandsCall × Bool
  | [] => ([], false)
  | c :: rest =>
    if fails c then ([c], true)
    else
      let r := attemptCalls fails rest
      (c :: r.1, r.2)

/-- The `setup` routine of `commands.py` under the fault model `fails`:
the two admin-scope calls run inside `try`; a `TelegramBadRequest` there is
replaced by `ValueError(f"Chat with DEV_ID {DEV_ID} not found.")`, which
aborts the routine; otherwise the four private/group calls run, and a
`TelegramBadRequest` among them escapes untranslated.  Returns the trace of
attempted calls and the outcome. -/
def setup (fails : SetMyCommandsCall → Bool) (supported : List (String × String))
    (DEV_ID : Int) : List SetMyCommandsCall × SetupOutcome :=
  let ra := attemptCalls fails (setupAdminCalls supported DEV_ID)
  if ra.2 then
    (ra.1, SetupOutcome.valueError
      ("Chat with DEV_ID " ++ toString DEV_ID ++ " not found."))
  else
    let rr := attemptCalls fails (setupRestCalls supported)
    (ra.1 ++ rr.1, if rr.2 then SetupOutcome.telegramBadRequest else SetupOutcome.ok)

/-- A call is admin-scope when its scope is a single-chat scope. -/
def isAdminScope : BotCommandScope → Bool
  | BotCommandScope.chat _ => true
  | _ => false

/-- A call is private-scope when its scope is all private chats. -/
def isPrivateScope : BotCommandScope → Bool
  | BotCommandScope.allPrivateChats => true
  | _ => false

/-- A call is group-scope when its scope is all group chats. -/
def isGroupScope : BotCommandScope → Bool
  | BotCommandScope.allGroupChats => true
  | _ => false

/-- The language a `set_my_commands` call registers: the `language_code`
argument when present; the source omits the argument exactly on the calls
that push the English lists, so an omitted argument stands for `"en"`. -/
def callLanguage (c : SetMyCommandsCall) : String :=
  c.language_code.getD "en"

/-!
## Theorems
-/

/-- C1: for every supported language code L, a fully successful run of
`setup` (no remote call fails) ends normally, issues `3 * |SUPPORTED_LANGUAGES|`
remote calls in total, and among them exactly one admin-scope call, exactly
one all-private-chats call and exactly one all-group-chats call register the
lists for L. -/
theorem setup_success_issues_three_calls_per_language (DEV_ID : Int) :
    (setup (fun _ => false) SUPPORTED_LANGUAGES DEV_ID).2 = SetupOutcome.ok ∧
    (setup (fun _ => false) SUPPORTED_LANGUAGES DEV_ID).1.length =
      3 * SUPPORTED_LANGUAGES.length ∧
    ∀ L, L ∈ supportedCodes →
      ((setup (fun _ => false) SUPPORTED_LANGUAGES DEV_ID).1.countP
          (fun c => isAdminScope c.scope && (callLanguage c == L)) = 1 ∧
       (setup (fun _ => false) SUPPORTED_LANGUAGES DEV_ID).1.countP
          (fun c => isPrivateScope c.scope && (callLanguage c == L)) = 1 ∧
       (setup (fun _ => false) SUPPORTED_LANGUAGES DEV_ID).1.countP
          (fun c => isGroupScope c.scope && (callLanguage c == L)) = 1) := by
  refine ⟨rfl, rfl, ?_⟩
  intro L hL
  have hL2 : L = "en" ∨ L = "ar" := by
    simpa [supportedCodes, SUPPORTED_LANGUAGES] using hL
  rcases hL2 with rfl | rfl <;> exact ⟨rfl, rfl, rfl⟩

/-- Witness for C1 at `DEV_ID = 1` and `L = "ar"`. -/
theorem setup_success_issues_three_calls_per_language_witness :
    ("ar" ∈ supportedCodes) ∧
    (setup (fun _ => false) SUPPORTED_LANGUAGES 1).1.countP
      (fun c => isAdminScope c.scope && (callLanguage c == "ar")) = 1 :=
  ⟨by decide, ((setup_success_issues_three_calls_per_language 1).2.2 "ar" (by decide)).1⟩

/-- C2: for every supported language code L, the admin-tier list registered
by `setup` is the base (private-chat) list for L with exactly one additional
entry appended at the end, the `newsletter` command.  (The base list appears
untouched on the right-hand side: in the source `admin_commands` is built
from a `.copy()` of the base list, so building it leaves the base list
unchanged, which the functional embedding renders by construction.) -/
theorem admin_list_is_base_list_plus_newsletter (supported : List (String × String))
    (L : String) (hL : L ∈ supportedCodes) :
    ∃ extra : BotCommand,
      ((admin_commands supported).lookup L).getD [] =
        ((commands supported).lookup L).getD [] ++ [extra] ∧
      extra.command = "newsletter" := by
  have hL2 : L = "en" ∨ L = "ar" := by
    simpa [supportedCodes, SUPPORTED_LANGUAGES] using hL
  rcases hL2 with rfl | rfl
  · exact ⟨BotCommand.mk "newsletter" "Newsletter menu", rfl, rfl⟩
  · exact ⟨BotCommand.mk "newsletter" "قائمة النشرة", rfl, rfl⟩

/-- Witness for C2 at `L = "en"`. -/
theorem admin_list_is_base_list_plus_newsletter_witness :
    ("en" ∈ supportedCodes) ∧
    ∃ extra : BotCommand,
      ((admin_commands SUPPORTED_LANGUAGES).lookup "en").getD [] =
        ((commands SUPPORTED_LANGUAGES).lookup "en").getD [] ++ [extra] ∧
      extra.command = "newsletter" :=
  ⟨by decide, admin_list_is_base_list_plus_newsletter SUPPORTED_LANGUAGES "en" (by decide)⟩

/-- C3, counterexample to the claim as stated: with `DEV_ID = 1` and a fault
model under which every admin-scope call raises `TelegramBadRequest`, `setup`
raises the configuration error naming the identifier, but the trace of
attempted calls contains zero all-private-chats calls and zero
all-group-chats calls — the private/group registrations are NOT attempted
afterward, contradicting the claim's final conjunct. -/
theorem setup_admin_failure_no_private_group_calls :
    (setup (fun c => isAdminScope c.scope) SUPPORTED_LANGUAGES 1).2 =
      SetupOutcome.valueError "Chat with DEV_ID 1 not found." ∧
    (setup (fun c => isAdminScope c.scope) SUPPORTED_LANGUAGES 1).1.countP
      (fun c => isPrivateScope c.scope) = 0 ∧
    (setup (fun c => isAdminScope c.scope) SUPPORTED_LANGUAGES 1).1.countP
      (fun c => isGroupScope c.scope) = 0 :=
  ⟨rfl, rfl, rfl⟩

/-- C3 (amended): if any admin-scope call inside the `try` block raises
`TelegramBadRequest`, `setup` raises a `ValueError` whose message names the
admin chat identifier, the trace of attempted calls is a prefix of the
admin-scope call sequence (the admin-scope calls after the failing one are
abandoned), and no private-chat or group-chat registration call is
attempted: the raised error aborts the rest of the routine. -/
theorem setup_admin_failure_aborts_everything (fails : SetMyCommandsCall → Bool)
    (supported : List (String × String)) (DEV_ID : Int)
    (h : ∃ c ∈ setupAdminCalls supported DEV_ID, fails c = true) :
    (setup fails supported DEV_ID).2 =
      SetupOutcome.valueError ("Chat with DEV_ID " ++ toString DEV_ID ++ " not found.") ∧
    (setup fails supported DEV_ID).1.countP (fun c => isPrivateScope c.scope) = 0 ∧
    (setup fails supported DEV_ID).1.countP (fun c => isGroupScope c.scope) = 0 ∧
    (setup fails supported DEV_ID).1 <+: setupAdminCalls supported DEV_ID := by
  obtain ⟨c, hc, hfc⟩ := h
  by_cases h0 : fails (SetMyCommandsCall.mk
      (((admin_commands supported).lookup "en").getD [])
      (BotCommandScope.chat DEV_ID) none) = true
  · have hs : setup fails supported DEV_ID =
        ([SetMyCommandsCall.mk (((admin_commands supported).lookup "en").getD [])
            (BotCommandScope.chat DEV_ID) none],
         SetupOutcome.valueError
           ("Chat with DEV_ID " ++ toString DEV_ID ++ " not found.")) := by
      simp [setup, setupAdminCalls, attemptCalls, h0]
    rw [hs]
    exact ⟨rfl, rfl, rfl,
      ⟨[SetMyCommandsCall.mk (((admin_commands supported).lookup "ar").getD [])
          (BotCommandScope.chat DEV_ID) (some "ar")], rfl⟩⟩
  · have h0f : fails (SetMyCommandsCall.mk
        (((admin_commands supported).lookup "en").getD [])
        (BotCommandScope.chat DEV_ID) none) = false := by
      simpa using h0
    have h1 : fails (SetMyCommandsCall.mk
        (((admin_commands supported).lookup "ar").getD [])
        (BotCommandScope.chat DEV_ID) (some "ar")) = true := by
      simp [setupAdminCalls] at hc
      rcases hc with rfl | rfl
      · exact absurd hfc h0
      · exact hfc
    have hs : setup fails supported DEV_ID =
        ([SetMyCommandsCall.mk (((admin_commands supported).lookup "en").getD [])
            (BotCommandScope.chat DEV_ID) none,
          SetMyCommandsCall.mk (((admin_commands supported).lookup "ar").getD [])
            (BotCommandScope.chat DEV_ID) (some "ar")],
         SetupOutcome.valueError
           ("Chat with DEV_ID " ++ toString DEV_ID ++ " not found.")) := by
      simp [setup, setupAdminCalls, attemptCalls, h0f, h1]
    rw [hs]
    exact ⟨rfl, rfl, rfl, ⟨[], by simp [setupAdminCalls]⟩⟩

/-- Witness for the amended C3 at `DEV_ID = 7`, under a fault model where
only the second (Arabic) admin-scope call fails. -/
theorem setup_admin_failure_aborts_everything_witness :
    (∃ c ∈ setupAdminCalls SUPPORTED_LANGUAGES 7,
        (fun c => c.language_code == some "ar") c = true) ∧
    (setup (fun c => c.language_code == some "ar") SUPPORTED_LANGUAGES 7).2 =
      SetupOutcome.valueError ("Chat with DEV_ID " ++ toString (7 : Int) ++ " not found.") :=
  ⟨by decide, (setup_admin_failure_aborts_everything
      (fun c => c.language_code == some "ar") SUPPORTED_LANGUAGES 7 (by decide)).1⟩

/-- C4: for every input string not in the supported-language set, `Text`
construction raises no error (the embedding is a total function) and yields
an instance equal to the one built by `Text.init "en"`, whose resolved
language code is the default `"en"`. -/
theorem unsupported_code_falls_back_to_default (code : String)
    (h : supportedCodes.contains code = false) :
    Text.init code = Text.init "en" ∧ (Text.init code).language_code = "en" := by
  have h2 : code ∉ supportedCodes := by simpa using h
  have hen : Text.init "en" = Text.mk "en" := rfl
  constructor
  · rw [hen]
    simp [Text.init, h2]
  · simp [Text.init, h2]

/-- Witness for C4 at `code = "fr"`. -/
theorem unsupported_code_falls_back_to_default_witness :
    supportedCodes.contains "fr" = false ∧ (Text.init "fr").language_code = "en" :=
  ⟨by decide, (unsupported_code_falls_back_to_default "fr" (by decide)).2⟩

/-- C5: `get` consults only the table of the instance's resolved language:
whenever `data` maps the resolved language to `table`, `get` returns exactly
`table.lookup code` — the stored string when the key is present, and `none`
(the Python `KeyError`) when it is absent.  In particular no default string
is substituted and no other language's mapping is ever consulted. -/
theorem text_get_uses_only_resolved_language
    (data : List (String × List (String × String))) (t : Text)
    (table : List (String × String)) (code : String)
    (h : data.lookup t.language_code = some table) :
    Text.get data t code = table.lookup code := by
  simp [Text.get, h]

/-- Witness for C5 on the concrete `TextMessage` catalog. -/
theorem text_get_uses_only_resolved_language_witness :
    TextMessage.data.lookup (Text.init "en").language_code =
      some ((TextMessage.data.lookup (Text.init "en").language_code).getD []) ∧
    Text.get TextMessage.data (Text.init "en") "message_sent" =
      ((TextMessage.data.lookup (Text.init "en").language_code).getD []).lookup
        "message_sent" :=
  ⟨rfl, text_get_uses_only_resolved_language TextMessage.data (Text.init "en") _
    "message_sent" rfl⟩

/-- C6: with supported languages exactly `{"en", "ar"}`, constructing the
message catalog with code `"fr"` resolves to `"en"`, and `get "message_sent"`
returns exactly the English template string stored under `"message_sent"`. -/
theorem fr_fallback_returns_english_message_sent :
    supportedCodes = ["en", "ar"] ∧
    (Text.init "fr").language_code = "en" ∧
    TextMessage.get (Text.init "fr") "message_sent" =
      some "<b>Message sent!</b> Expect a response." ∧
    ((TextMessage.data.lookup "en").getD []).lookup "message_sent" =
      some "<b>Message sent!</b> Expect a response." :=
  ⟨rfl, rfl, rfl, rfl⟩

/-- C7: in the concrete `TextMessage` catalog the key set of the `"en"`
mapping and the key set of the `"ar"` mapping are identical: every key
present under one language is present under the other. -/
theorem catalog_key_sets_identical (k : String) :
    k ∈ ((TextMessage.data.lookup "en").getD []).map Prod.fst ↔
    k ∈ ((TextMessage.data.lookup "ar").getD []).map Prod.fst := by
  have h : ((TextMessage.data.lookup "en").getD []).map Prod.fst =
      ((TextMessage.data.lookup "ar").getD []).map Prod.fst := rfl
  rw [h]

/-- C8: `get` is deterministic and side-effect-free: two catalog instances
with the same resolved language code return identical strings for the same
key. -/
theorem get_deterministic (t1 t2 : Text) (code : String)
    (h : t1.language_code = t2.language_code) :
    TextMessage.get t1 code = TextMessage.get t2 code := by
  cases t1
  cases t2
  cases h
  rfl

/-- Witness for C8: two distinct constructions resolving to the same
language. -/
theorem get_deterministic_witness :
    (Text.init "fr").language_code = (Text.init "en").language_code ∧
    TextMessage.get (Text.init "fr") "main_menu" =
      TextMessage.get (Text.init "en") "main_menu" :=
  ⟨rfl, get_deterministic (Text.init "fr") (Text.init "en") "main_menu" rfl⟩

/-- C9: the resolved language code of any constructed instance is a member
of the supported-language set, and a supported input code is kept unchanged,
never rewritten to the default. -/
theorem resolved_code_always_supported (code : String) :
    supportedCodes.contains (Text.init code).language_code = true ∧
    (supportedCodes.contains code = true → (Text.init code).language_code = code) := by
  by_cases h : code ∈ supportedCodes
  · have hc : (Text.init code).language_code = code := by simp [Text.init, h]
    rw [hc]
    exact ⟨by simpa using h, fun _ => rfl⟩
  · have hc : (Text.init code).language_code = "en" := by simp [Text.init, h]
    rw [hc]
    refine ⟨by decide, fun hcon => ?_⟩
    exact absurd (show code ∈ supportedCodes by simpa using hcon) h

/-- Witness for C9 at `code = "ar"`. -/
theorem resolved_code_always_supported_witness :
    supportedCodes.contains (Text.init "ar").language_code = true ∧
    supportedCodes.contains "ar" = true ∧ (Text.init "ar").language_code = "ar" :=
  ⟨(resolved_code_always_supported "ar").1, by decide,
   (resolved_code_always_supported "ar").2 (by decide)⟩

/-- C10: the base (private-chat) lists built by `setup` depend on the size of
the supported-language table: with more than one language each list is
exactly `[start, language]` in that order; with exactly one language each
list is exactly `[start]` and no language-change command is registered. -/
theorem base_list_depends_on_language_count (supported : List (String × String)) :
    (1 < supported.length →
      ((commands supported).lookup "en").getD [] =
          [BotCommand.mk "start" "Restart bot",
           BotCommand.mk "language" "Change language"] ∧
      ((commands supported).lookup "ar").getD [] =
          [BotCommand.mk "start" "إعادة تشغيل البوت",
           BotCommand.mk "language" "تغيير اللغة"]) ∧
    (supported.length = 1 →
      ((commands supported).lookup "en").getD [] =
          [BotCommand.mk "start" "Restart bot"] ∧
      ((commands supported).lookup "ar").getD [] =
          [BotCommand.mk "start" "إعادة تشغيل البوت"]) := by
  constructor
  · intro h
    simp only [commands]
    rw [if_pos h]
    exact ⟨rfl, rfl⟩
  · intro h
    simp only [commands]
    rw [if_neg (by omega)]
    exact ⟨rfl, rfl⟩

/-- Witness for C10 on the concrete two-language table. -/
theorem base_list_depends_on_language_count_witness :
    (1 < SUPPORTED_LANGUAGES.length) ∧
    ((commands SUPPORTED_LANGUAGES).lookup "en").getD [] =
      [BotCommand.mk "start" "Restart bot",
       BotCommand.mk "language" "Change language"] :=
  ⟨by decide, ((base_list_depends_on_language_count SUPPORTED_LANGUAGES).1 (by decide)).1⟩
